import Mathlib

/-!
# Verification of the container control manager (`main.py`)

A shallow embedding of the lifecycle operations of `main.py`: the five
HTTP handlers (`get_status`, `start_container`, `stop_container`,
`restart_container`, `update_data`, `rebuild_and_redeploy`), the two
polling loops they use, and the path construction of the data-update
operation.  The external Docker engine is modelled as explicit state
(`SysState`): the managed container, the engine's responses to the
create/build commands, and the sequence of states each polling loop
observes on successive `reload()` calls.  Raised `HTTPException`s are
modelled as `Except.error`; counters record every command issued to the
engine and every file written, so that "no command was issued" is a
provable statement.
-/

/-- Docker container lifecycle states (the strings `container.status`
can take; `main.py` compares against `"running"`, `"exited"`, `"dead"`). -/
inductive ContainerState where
  | created
  | restarting
  | running
  | removing
  | paused
  | exited
  | dead
  deriving DecidableEq, Repr

/-- What a `containers.get` / `reload()` observes: the container's current
status together with its current log text (`container.logs()`). -/
structure ContainerInfo where
  status : ContainerState
  logs : String
  deriving DecidableEq, Repr

/-- `CONTAINER_NAME = "my-trading-bot-managed"` (main.py:8). -/
def CONTAINER_NAME : String := "my-trading-bot-managed"

/-- `IMAGE_NAME = "trading-bot"` (main.py:9). -/
def IMAGE_NAME : String := "trading-bot"

/-- The process working directory against which `os.path.abspath`
resolves relative paths; fixed to a concrete absolute path. -/
def CWD : String := "/project"

/-- `HOST_DATA_PATH = os.path.abspath("./app/trading_data")` (main.py:10). -/
def HOST_DATA_PATH : String := CWD ++ "/app/trading_data"

/-- `CONTAINER_DATA_PATH = "/app/data"` (main.py:11). -/
def CONTAINER_DATA_PATH : String := "/app/data"

/-- `BUILD_CONTEXT_PATH = os.path.abspath(".")` (main.py:14). -/
def BUILD_CONTEXT_PATH : String := CWD

/-- Primitive events of a polling loop, in the order they happen:
`time.sleep(seconds)` and `container.reload()` (each reload is
immediately followed by the state checks of that iteration). -/
inductive PollEvent where
  | sleep (seconds : Nat)
  | reload
  deriving DecidableEq, Repr

/-- Outcome of the start/restart polling loop: the container was observed
`running` (success), observed `exited`/`dead` (failure, carrying the
observation whose `.logs` are fetched at that point), or 10 attempts
were exhausted. -/
inductive RunPollOutcome where
  | converged (fin : ContainerInfo)
  | failedState (fin : ContainerInfo)
  | timedOut
  deriving DecidableEq, Repr

/-- Outcome of the stop polling loop: the container was observed `exited`,
or 10 attempts were exhausted.  The stop loop has no failure branch. -/
inductive StopPollOutcome where
  | converged (fin : ContainerInfo)
  | timedOut
  deriving DecidableEq, Repr

/-- The polling loop of `start_container` (main.py:58-62) and, identically,
of `restart_container` (main.py:91-95):
`for _ in range(10): time.sleep(1); container.reload();` then check
`running` (return success) and `exited`/`dead` (fetch logs, fail).
`sched j` is the `ContainerInfo` the `(j+1)`-th `reload()` observes.
Returns the outcome and the trace of sleep/reload events. -/
def runningPollAux (sched : Nat → ContainerInfo) (i : Nat) :
    Nat → RunPollOutcome × List PollEvent
  | 0 => (.timedOut, [])
  | fuel + 1 =>
    if (sched i).status = .running then
      (.converged (sched i), [.sleep 1, .reload])
    else if (sched i).status = .exited ∨ (sched i).status = .dead then
      (.failedState (sched i), [.sleep 1, .reload])
    else
      ((runningPollAux sched (i + 1) fuel).1,
        .sleep 1 :: .reload :: (runningPollAux sched (i + 1) fuel).2)

/-- The start/restart polling loop entered at attempt 0 with the fixed
bound of 10 attempts (`range(10)`). -/
def running_poll (sched : Nat → ContainerInfo) : RunPollOutcome × List PollEvent :=
  runningPollAux sched 0 10

/-- The polling loop of `stop_container` (main.py:76-79):
`for _ in range(10): container.reload();` check `exited` (return
success) and only then `time.sleep(1)`.  Note the reload/check happens
BEFORE the sleep, unlike the start/restart loop. -/
def stopPollAux (sched : Nat → ContainerInfo) (i : Nat) :
    Nat → StopPollOutcome × List PollEvent
  | 0 => (.timedOut, [])
  | fuel + 1 =>
    if (sched i).status = .exited then
      (.converged (sched i), [.reload])
    else
      ((stopPollAux sched (i + 1) fuel).1,
        .reload :: .sleep 1 :: (stopPollAux sched (i + 1) fuel).2)

/-- The stop polling loop entered at attempt 0 with the fixed bound of 10
attempts (`range(10)`). -/
def stop_poll (sched : Nat → ContainerInfo) : StopPollOutcome × List PollEvent :=
  stopPollAux sched 0 10

/-- The engine's response to `client.containers.run(...)` (main.py:54-57):
the command is accepted and the container is created, the image is
missing (`docker.errors.ImageNotFound`), or the engine rejects the
request (e.g. a duplicate-name conflict), raising a generic `APIError`
with the given message. -/
inductive RunOutcome where
  | accepted
  | imageMissing
  | rejected (msg : String)
  deriving DecidableEq, Repr

/-- One chunk yielded by the build-log generator of `client.images.build`
(main.py:155-159): a chunk with a `stream` key, or any other chunk. -/
inductive BuildChunk where
  | stream (line : String)
  | other
  deriving DecidableEq, Repr

/-- The engine's response to `client.images.build(...)` (main.py:148-166):
success with the chunks the log generator yields, a
`docker.errors.BuildError` carrying `e.msg`, or any other exception. -/
inductive BuildOutcome where
  | built (chunks : List BuildChunk)
  | buildError (msg : String)
  | infraError (msg : String)
  deriving DecidableEq, Repr

/-- The whole observable world of `main.py`: the module-level `client`
(available or `None`), the managed container as the engine currently
holds it, the engine's fixed responses to the create/build commands,
whether the single file write of `update_data` fails (`IOError` text),
the observation schedules of the three polling loops, and the effect
counters (commands issued to the engine, successful file writes). -/
structure SysState where
  clientAvailable : Bool
  container : Option ContainerInfo
  runOutcome : RunOutcome
  buildOutcome : BuildOutcome
  writeError : Option String
  startSched : Nat → ContainerInfo
  stopSched : Nat → ContainerInfo
  restartSched : Nat → ContainerInfo
  runCmds : Nat
  stopCmds : Nat
  restartCmds : Nat
  removeCmds : Nat
  writes : List (String × String)

/-- The `detail` payload of an `HTTPException`: either a plain string or
the dict `\x7b"status": ..., "logs": ...\x7d` used by the failure paths of
start/restart. -/
inductive Detail where
  | msg (s : String)
  | statusLogs (status : String) (logs : String)
  deriving DecidableEq, Repr

/-- A raised `HTTPException(status_code, detail)`. -/
structure HttpErr where
  status_code : Nat
  detail : Detail
  deriving DecidableEq, Repr

/-- The 503 error every handler raises when `client` is `None`. -/
def unavailableErr : HttpErr :=
  ⟨503, .msg "Docker daemon is not available."⟩

/-- Successful JSON results of `GET /status` (main.py:34-43). -/
inductive StatusResult where
  | info (container_name : String) (status : ContainerState)
  | not_found
  deriving DecidableEq, Repr

/-- Successful JSON results of `POST /start` (main.py:45-67). -/
inductive StartResult where
  | already_running
  | started_and_running
  deriving DecidableEq, Repr

/-- Successful JSON results of `POST /stop` (main.py:69-84). -/
inductive StopResult where
  | already_stopped
  | stopped_and_verified
  | not_found_or_already_stopped
  deriving DecidableEq, Repr

/-- Successful JSON result of `POST /restart` (main.py:86-100). -/
inductive RestartResult where
  | restarted_and_running
  deriving DecidableEq, Repr

/-- The request body of `POST /update-data` (main.py:28-30). -/
structure DataUpdateRequest where
  filename : String
  content : String
  deriving DecidableEq, Repr

/-- Successful JSON result of `POST /update-data` (main.py:114). -/
inductive UpdateResult where
  | data_updated_and_restarted (filename : String)
  deriving DecidableEq, Repr

/-- Results of `POST /rebuild` that the handler RETURNS (main.py:164,
175-179).  On `BuildError` the code `return`s (does not raise) an
`HTTPException(500, \x7b"status": "build_failed", "logs": e.msg\x7d)` object;
`build_failed` models that returned value. -/
inductive RebuildResult where
  | build_failed (logs : String)
  | rebuild_and_restart_successful (final_container_status : StartResult)
      (build_logs : String)
  deriving DecidableEq, Repr

/-- `GET /status` (main.py:34-43): 503 when the client is gone, else
look the container up by `CONTAINER_NAME` and report its status, with
`NotFound` translated to the benign `not_found` result. -/
def get_status (st : SysState) : Except HttpErr StatusResult × SysState :=
  if st.clientAvailable = false then (.error unavailableErr, st)
  else
    match st.container with
    | some info => (.ok (.info CONTAINER_NAME info.status), st)
    | none => (.ok .not_found, st)

/-- The create-and-poll tail of `POST /start` (main.py:52-67): issue
`containers.run(image=IMAGE_NAME, name=CONTAINER_NAME, detach=True,
volumes=...)`, translate `ImageNotFound` to 404 and any other engine
rejection to the generic 500, then run the 10-attempt polling loop on
the new container. -/
def startRunAndPoll (st : SysState) : Except HttpErr StartResult × SysState :=
  let st' := { st with runCmds := st.runCmds + 1 }
  match st.runOutcome with
  | .imageMissing =>
      (.error ⟨404, .msg ("Image \x27" ++ IMAGE_NAME ++
        "\x27 not found. Please build it first.")⟩, st')
  | .rejected m =>
      (.error ⟨500, .msg ("An unexpected error occurred: " ++ m)⟩, st')
  | .accepted =>
      match running_poll st.startSched with
      | (.converged fin, _) =>
          (.ok .started_and_running, { st' with container := some fin })
      | (.failedState fin, _) =>
          (.error ⟨500, .statusLogs "container_failed_to_start" fin.logs⟩,
            { st' with container := some fin })
      | (.timedOut, _) =>
          (.error ⟨504, .msg "Container start timed out."⟩,
            { st' with container := some (st.startSched 9) })

/-- `POST /start` (main.py:45-67): 503 when the client is gone; if the
container exists and its status is `running`, short-circuit with
`already_running` (main.py:49-50); otherwise (absent, or any
non-running status) create-and-run a fresh container and poll. -/
def start_container (st : SysState) : Except HttpErr StartResult × SysState :=
  if st.clientAvailable = false then (.error unavailableErr, st)
  else
    match st.container with
    | some info =>
        if info.status = .running then (.ok .already_running, st)
        else startRunAndPoll st
    | none => startRunAndPoll st

/-- `POST /stop` (main.py:69-84): 503 when the client is gone; `NotFound`
is translated to the benign `not_found_or_already_stopped`; a container
already `exited` short-circuits with `already_stopped` (main.py:74);
otherwise `container.stop()` is issued and the 10-attempt stop loop
polls for `exited`. -/
def stop_container (st : SysState) : Except HttpErr StopResult × SysState :=
  if st.clientAvailable = false then (.error unavailableErr, st)
  else
    match st.container with
    | none => (.ok .not_found_or_already_stopped, st)
    | some info =>
        if info.status = .exited then (.ok .already_stopped, st)
        else
          match stop_poll st.stopSched with
          | (.converged fin, _) =>
              (.ok .stopped_and_verified,
                { st with stopCmds := st.stopCmds + 1, container := some fin })
          | (.timedOut, _) =>
              (.error ⟨504, .msg "Container stop timed out."⟩,
                { st with
                  stopCmds := st.stopCmds + 1
                  container := some (st.stopSched 9) })

/-- `POST /restart` (main.py:86-100): 503 when the client is gone;
`NotFound` becomes a 404; otherwise `container.restart()` is issued and
the 10-attempt running loop polls, failing with
`container_failed_on_restart` plus logs on `exited`/`dead`. -/
def restart_container (st : SysState) : Except HttpErr RestartResult × SysState :=
  if st.clientAvailable = false then (.error unavailableErr, st)
  else
    match st.container with
    | none => (.error ⟨404, .msg "Container not found."⟩, st)
    | some _ =>
        let st' := { st with restartCmds := st.restartCmds + 1 }
        match running_poll st.restartSched with
        | (.converged fin, _) =>
            (.ok .restarted_and_running, { st' with container := some fin })
        | (.failedState fin, _) =>
            (.error ⟨500, .statusLogs "container_failed_on_restart" fin.logs⟩,
              { st' with container := some fin })
        | (.timedOut, _) =>
            (.error ⟨504, .msg "Container restart timed out."⟩,
              { st' with container := some (st.restartSched 9) })

/-- `b.startswith("/")` as `os.path.join` tests it: the first character
of `b` is a slash. -/
def headIsSlash (s : String) : Bool :=
  match s.data with
  | [] => false
  | c :: _ => c == '/'

/-- `a.endswith("/")`: the last character of `a` is a slash. -/
def lastIsSlash (s : String) : Bool :=
  match s.data.getLast? with
  | some c => c == '/'
  | none => false

/-- POSIX `os.path.join(a, b)` for two components (main.py:105): an
absolute `b` DISCARDS `a` entirely; otherwise the two are joined with a
separator unless `a` is empty or already ends in one. -/
def osPathJoin (a b : String) : String :=
  if headIsSlash b then b
  else if a = "" then b
  else if lastIsSlash a then a ++ b
  else a ++ "/" ++ b

/-- `file_path = os.path.join(HOST_DATA_PATH, request.filename)`
(main.py:105): the host path `update_data` writes to. -/
def update_data_file_path (filename : String) : String :=
  osPathJoin HOST_DATA_PATH filename

/-- `POST /update-data` (main.py:102-114): call `stop_container()` (its
`HTTPException` propagates), join the write path, attempt the write; on
`IOError` call `restart_container()` and only afterwards raise the
write error — so an error raised by that restart propagates INSTEAD of
the write error; on a successful write call `restart_container()` and
report success. -/
def update_data (st : SysState) (request : DataUpdateRequest) :
    Except HttpErr UpdateResult × SysState :=
  match stop_container st with
  | (.error e, st₁) => (.error e, st₁)
  | (.ok _, st₁) =>
    let file_path := update_data_file_path request.filename
    match st₁.writeError with
    | some err =>
        match restart_container st₁ with
        | (.error e, st₂) => (.error e, st₂)
        | (.ok _, st₂) =>
            (.error ⟨500, .msg ("Failed to write to file: " ++ err)⟩, st₂)
    | none =>
        let st₂ := { st₁ with writes := st₁.writes ++ [(file_path, request.content)] }
        match restart_container st₂ with
        | (.error e, st₃) => (.error e, st₃)
        | (.ok _, st₃) =>
            (.ok (.data_updated_and_restarted request.filename), st₃)

/-- `build_logs` accumulation (main.py:155-159): for every chunk with a
`stream` key, append the stripped line plus a newline. -/
def accumulateBuildLogs (chunks : List BuildChunk) : String :=
  chunks.foldl
    (fun acc c =>
      match c with
      | .stream line => acc ++ line.trim ++ "\n"
      | .other => acc)
    ""

/-- `POST /rebuild` (main.py:117-179): 503 when the client is gone; step 1
stops and removes an existing container (absence tolerated); step 2
builds the image — on `BuildError` the handler RETURNS the
`build_failed` payload with `e.msg`, on any other exception it raises a
generic 500, and in both cases step 3 is never reached; step 3 invokes
`start_container` as a sub-operation (its errors propagate) and wraps
its result together with the accumulated build logs. -/
def rebuild_and_redeploy (st : SysState) : Except HttpErr RebuildResult × SysState :=
  if st.clientAvailable = false then (.error unavailableErr, st)
  else
    let st₁ :=
      match st.container with
      | some _ =>
          { st with
            stopCmds := st.stopCmds + 1
            removeCmds := st.removeCmds + 1
            container := none }
      | none => st
    match st₁.buildOutcome with
    | .buildError m => (.ok (.build_failed m), st₁)
    | .infraError m =>
        (.error ⟨500, .msg ("An unexpected error occurred during build: " ++ m)⟩, st₁)
    | .built chunks =>
        let build_logs := accumulateBuildLogs chunks
        match start_container st₁ with
        | (.error e, st₂) => (.error e, st₂)
        | (.ok s, st₂) =>
            (.ok (.rebuild_and_restart_successful s build_logs), st₂)

/-- A poll trace obeys "wait, then re-read": every `reload` is immediately
preceded by a 1-second `sleep`. -/
def waitsBeforeEachReload : List PollEvent → Bool
  | [] => true
  | PollEvent.sleep s :: PollEvent.reload :: rest =>
      s == 1 && waitsBeforeEachReload rest
  | PollEvent.sleep _ :: rest => waitsBeforeEachReload rest
  | PollEvent.reload :: _ => false

/-- A poll trace obeys "re-read, check, then wait": every `sleep` is
immediately preceded by a `reload`, and the trace starts with a
`reload`. -/
def reloadBeforeEachSleep : List PollEvent → Bool
  | [] => true
  | PollEvent.reload :: PollEvent.sleep s :: rest =>
      s == 1 && reloadBeforeEachSleep rest
  | PollEvent.reload :: rest => reloadBeforeEachSleep rest
  | PollEvent.sleep _ :: _ => false

/-- The number of state re-reads in a poll trace. -/
def reloadCount (tr : List PollEvent) : Nat :=
  tr.countP (fun e =>
    match e with
    | .reload => true
    | .sleep _ => false)

/-- A status resolves the start/restart polling loop: it is in the success
set `\x7brunning\x7d` or in the failure set `\x7bexited, dead\x7d`. -/
def runResolved (s : ContainerState) : Prop :=
  s = .running ∨ s = .exited ∨ s = .dead

/-- Split a character list at `/` into segments. -/
def splitSegs : List Char → List (List Char)
  | [] => [[]]
  | c :: rest =>
    match splitSegs rest with
    | [] => [[c]]
    | seg :: tail => if c = '/' then [] :: seg :: tail else (c :: seg) :: tail

/-- Whether any `/`-separated segment of the string is `..`. -/
def hasParentSeg (s : String) : Bool :=
  (splitSegs s.data).any (fun seg => seg == ['.', '.'])

/-- A path `p` lies under directory `dir`: it is `dir ++ "/" ++ rest` for
a relative remainder with no `..` segment. -/
def liesUnder (dir p : String) : Prop :=
  ∃ rest : String, headIsSlash rest = false ∧
    hasParentSeg rest = false ∧ p = dir ++ "/" ++ rest

/-- The constant observation schedule. -/
def constSched (info : ContainerInfo) : Nat → ContainerInfo := fun _ => info

/-- A baseline healthy world for the concrete scenarios: client connected,
no container yet, image present, builds succeed, writes succeed, and
every poll observes its target state immediately. -/
def baseState : SysState where
  clientAvailable := true
  container := none
  runOutcome := .accepted
  buildOutcome := .built []
  writeError := none
  startSched := constSched ⟨.running, ""⟩
  stopSched := constSched ⟨.exited, ""⟩
  restartSched := constSched ⟨.running, ""⟩
  runCmds := 0
  stopCmds := 0
  restartCmds := 0
  removeCmds := 0
  writes := []

/-- A schedule on which a poll never resolves: the container stays
`created` forever. -/
def pendingSched : Nat → ContainerInfo := constSched ⟨.created, ""⟩

/-- A schedule observing `created` on the first read and `dead` with log
text "boom" from the second read on. -/
def dyingSched : Nat → ContainerInfo := fun j =>
  if j = 0 then ⟨.created, ""⟩ else ⟨.dead, "boom"⟩

/-- World with the managed container up and running. -/
def runningState : SysState :=
  { baseState with container := some ⟨.running, "up"⟩, runCmds := 1 }

/-- World where a started container comes up `created` and then dies. -/
def dyingStartState : SysState :=
  { baseState with startSched := dyingSched }

/-- World where the image build fails with a `BuildError`. -/
def buildFailState : SysState :=
  { baseState with
    container := some ⟨.running, "up"⟩
    buildOutcome := .buildError "Step 3/7 failed" }

/-- World with no container and an unwritable data file. -/
def writeFailAbsentState : SysState :=
  { baseState with writeError := some "disk full" }

/-- World with a running container and an unwritable data file. -/
def writeFailRunningState : SysState :=
  { baseState with
    container := some ⟨.running, "up"⟩
    writeError := some "disk full" }

/-- World whose engine rejects container creation with a duplicate-name
conflict while an exited container of that name still exists. -/
def conflictState : SysState :=
  { baseState with
    container := some ⟨.exited, "old logs"⟩
    runOutcome := .rejected "409 Client Error: Conflict" }

/-- World in degraded mode: the connection to the engine failed at
process start (`client = None`). -/
def degradedState : SysState :=
  { baseState with clientAvailable := false }

/-- World with a running container that never reaches `exited`: every
stop poll observes it still `running`, so stop times out. -/
def stuckStopState : SysState :=
  { baseState with
    container := some ⟨.running, "up"⟩
    stopSched := constSched ⟨.running, ""⟩ }

/-! ## Polling loop lemmas -/

theorem runningPollAux_waits (sched : Nat → ContainerInfo) :
    ∀ fuel i, waitsBeforeEachReload (runningPollAux sched i fuel).2 = true := by
  intro fuel
  induction fuel with
  | zero => intro i; rfl
  | succ n ih =>
    intro i
    by_cases h1 : (sched i).status = .running
    · simp [runningPollAux, h1, waitsBeforeEachReload]
    · by_cases h2 : (sched i).status = .exited ∨ (sched i).status = .dead
      · simp [runningPollAux, h1, h2, waitsBeforeEachReload]
      · simp [runningPollAux, h1, h2, waitsBeforeEachReload, ih (i + 1)]

theorem stopPollAux_checks_first (sched : Nat → ContainerInfo) :
    ∀ fuel i, reloadBeforeEachSleep (stopPollAux sched i fuel).2 = true := by
  intro fuel
  induction fuel with
  | zero => intro i; rfl
  | succ n ih =>
    intro i
    by_cases h1 : (sched i).status = .exited
    · simp [stopPollAux, h1, reloadBeforeEachSleep]
    · simp [stopPollAux, h1, reloadBeforeEachSleep, ih (i + 1)]

theorem reloadCount_sleep_cons (s : Nat) (rest : List PollEvent) :
    reloadCount (.sleep s :: rest) = reloadCount rest := by
  simp [reloadCount, List.countP_cons]

theorem reloadCount_reload_cons (rest : List PollEvent) :
    reloadCount (.reload :: rest) = reloadCount rest + 1 := by
  simp [reloadCount, List.countP_cons]

theorem runningPollAux_reloadCount (sched : Nat → ContainerInfo) :
    ∀ fuel i, reloadCount (runningPollAux sched i fuel).2 ≤ fuel := by
  intro fuel
  induction fuel with
  | zero => intro i; simp [runningPollAux, reloadCount]
  | succ n ih =>
    intro i
    by_cases h1 : (sched i).status = .running
    · simp [runningPollAux, h1, reloadCount, List.countP_cons]
    · by_cases h2 : (sched i).status = .exited ∨ (sched i).status = .dead
      · simp [runningPollAux, h1, h2, reloadCount, List.countP_cons]
      · have hc := ih (i + 1)
        simp only [runningPollAux, if_neg h1, if_neg h2,
          reloadCount_sleep_cons, reloadCount_reload_cons]
        omega

theorem stopPollAux_reloadCount (sched : Nat → ContainerInfo) :
    ∀ fuel i, reloadCount (stopPollAux sched i fuel).2 ≤ fuel := by
  intro fuel
  induction fuel with
  | zero => intro i; simp [stopPollAux, reloadCount]
  | succ n ih =>
    intro i
    by_cases h1 : (sched i).status = .exited
    · simp [stopPollAux, h1, reloadCount, List.countP_cons]
    · have hc := ih (i + 1)
      simp only [stopPollAux, if_neg h1,
        reloadCount_sleep_cons, reloadCount_reload_cons]
      omega

theorem runningPollAux_timedOut (sched : Nat → ContainerInfo) :
    ∀ fuel i, (∀ j, j < fuel → ¬ runResolved (sched (i + j)).status) →
    (runningPollAux sched i fuel).1 = .timedOut := by
  intro fuel
  induction fuel with
  | zero => intro i _; rfl
  | succ n ih =>
    intro i h
    have h0 : ¬ runResolved (sched i).status := by
      have := h 0 (Nat.succ_pos n)
      simpa using this
    rw [runResolved] at h0
    push_neg at h0
    simp only [runningPollAux, if_neg h0.1, if_neg (by tauto : ¬ ((sched i).status = .exited ∨ (sched i).status = .dead))]
    exact ih (i + 1) (fun j hj => by
      have hidx : i + 1 + j = i + (j + 1) := by omega
      rw [hidx]
      exact h (j + 1) (by omega))

theorem runningPollAux_resolved (sched : Nat → ContainerInfo) :
    ∀ fuel i k, k < fuel →
    (∀ j, j < k → ¬ runResolved (sched (i + j)).status) →
    runResolved (sched (i + k)).status →
    (runningPollAux sched i fuel).1 =
      (if (sched (i + k)).status = .running then
        RunPollOutcome.converged (sched (i + k))
      else RunPollOutcome.failedState (sched (i + k))) := by
  intro fuel
  induction fuel with
  | zero => intro i k hk; omega
  | succ n ih =>
    intro i k hk hfirst hres
    match k with
    | 0 =>
      simp only [Nat.add_zero] at hres ⊢
      by_cases h1 : (sched i).status = .running
      · simp [runningPollAux, h1]
      · have h2 : (sched i).status = .exited ∨ (sched i).status = .dead := by
          rw [runResolved] at hres
          tauto
        simp [runningPollAux, h1, h2]
    | k + 1 =>
      have h0 : ¬ runResolved (sched i).status := by
        have := hfirst 0 (Nat.succ_pos k)
        simpa using this
      rw [runResolved] at h0
      push_neg at h0
      have hidx : i + 1 + k = i + (k + 1) := by omega
      simp only [runningPollAux, if_neg h0.1, if_neg (by tauto : ¬ ((sched i).status = .exited ∨ (sched i).status = .dead))]
      have := ih (i + 1) k (by omega)
        (fun j hj => by
          have hj' : i + 1 + j = i + (j + 1) := by omega
          rw [hj']
          exact hfirst (j + 1) (by omega))
        (by rw [hidx]; exact hres)
      rw [hidx] at this
      exact this

theorem stopPollAux_timedOut (sched : Nat → ContainerInfo) :
    ∀ fuel i, (∀ j, j < fuel → (sched (i + j)).status ≠ .exited) →
    (stopPollAux sched i fuel).1 = .timedOut := by
  intro fuel
  induction fuel with
  | zero => intro i _; rfl
  | succ n ih =>
    intro i h
    have h0 : (sched i).status ≠ .exited := by
      have := h 0 (Nat.succ_pos n)
      simpa using this
    simp only [stopPollAux, if_neg h0]
    exact ih (i + 1) (fun j hj => by
      have hidx : i + 1 + j = i + (j + 1) := by omega
      rw [hidx]
      exact h (j + 1) (by omega))

theorem stopPollAux_resolved (sched : Nat → ContainerInfo) :
    ∀ fuel i k, k < fuel →
    (∀ j, j < k → (sched (i + j)).status ≠ .exited) →
    (sched (i + k)).status = .exited →
    (stopPollAux sched i fuel).1 = .converged (sched (i + k)) := by
  intro fuel
  induction fuel with
  | zero => intro i k hk; omega
  | succ n ih =>
    intro i k hk hfirst hres
    match k with
    | 0 =>
      simp only [Nat.add_zero] at hres ⊢
      simp [stopPollAux, hres]
    | k + 1 =>
      have h0 : (sched i).status ≠ .exited := by
        have := hfirst 0 (Nat.succ_pos k)
        simpa using this
      have hidx : i + 1 + k = i + (k + 1) := by omega
      simp only [stopPollAux, if_neg h0]
      have := ih (i + 1) k (by omega)
        (fun j hj => by
          have hj' : i + 1 + j = i + (j + 1) := by omega
          rw [hj']
          exact hfirst (j + 1) (by omega))
        (by rw [hidx]; exact hres)
      rw [hidx] at this
      exact this

theorem stopPollAux_converged_status (sched : Nat → ContainerInfo) :
    ∀ fuel i fin, (stopPollAux sched i fuel).1 = .converged fin →
    fin.status = .exited := by
  intro fuel
  induction fuel with
  | zero => intro i fin h; simp [stopPollAux] at h
  | succ n ih =>
    intro i fin h
    by_cases h1 : (sched i).status = .exited
    · simp only [stopPollAux, if_pos h1] at h
      injection h with h
      rw [← h]
      exact h1
    · simp only [stopPollAux, if_neg h1] at h
      exact ih (i + 1) fin h

/-! ## C1: polling discipline of start/stop/restart -/

/-- C1 (counterexample): the claim asserts that every polling lifecycle
operation waits 1 second BEFORE each state check.  The stop loop
(main.py:76-79) re-reads and checks first and sleeps only afterwards:
on a concrete schedule its very first trace event is a `reload` with no
preceding `sleep`, and on a first-read convergence it performs no sleep
at all. -/
theorem stop_poll_checks_without_prior_wait :
    waitsBeforeEachReload (stop_poll (constSched ⟨.running, ""⟩)).2 = false
  ∧ (stop_poll (constSched ⟨.exited, ""⟩)).2 = [PollEvent.reload] := by
  constructor
  · rfl
  · rfl

/-- C1 (amended): the polling loops run up to 10 attempts (at most 10
re-reads) and return converged on a success-set state, failed (carrying
the observation whose logs are fetched) on a failure-set state for
start/restart, and timed-out when all attempts are exhausted; start and
restart wait 1 second before each re-read, but stop re-reads and checks
FIRST and waits only after an unsuccessful check, and stop has no
failure set (its loop can only converge on `exited` or time out). -/
theorem poll_loop_semantics (sched : Nat → ContainerInfo) :
    (waitsBeforeEachReload (running_poll sched).2 = true
      ∧ reloadCount (running_poll sched).2 ≤ 10
      ∧ ((∀ j, j < 10 → ¬ runResolved (sched j).status) →
          (running_poll sched).1 = .timedOut)
      ∧ (∀ k, k < 10 → (∀ j, j < k → ¬ runResolved (sched j).status) →
          ((sched k).status = .running →
            (running_poll sched).1 = .converged (sched k))
          ∧ ((sched k).status = .exited ∨ (sched k).status = .dead →
            (running_poll sched).1 = .failedState (sched k))))
  ∧ (reloadBeforeEachSleep (stop_poll sched).2 = true
      ∧ reloadCount (stop_poll sched).2 ≤ 10
      ∧ ((∀ j, j < 10 → (sched j).status ≠ .exited) →
          (stop_poll sched).1 = .timedOut)
      ∧ (∀ k, k < 10 → (∀ j, j < k → (sched j).status ≠ .exited) →
          (sched k).status = .exited →
          (stop_poll sched).1 = .converged (sched k))) := by
  refine ⟨⟨?_, ?_, ?_, ?_⟩, ?_, ?_, ?_, ?_⟩
  · exact runningPollAux_waits sched 10 0
  · exact runningPollAux_reloadCount sched 10 0
  · intro h
    exact runningPollAux_timedOut sched 10 0 (fun j hj => by
      simpa using h j hj)
  · intro k hk hfirst
    have hbase := runningPollAux_resolved sched 10 0 k hk
      (fun j hj => by simpa using hfirst j hj)
    constructor
    · intro hrun
      have := hbase (by rw [runResolved]; simp; tauto)
      rw [running_poll]
      rw [this]
      simp only [Nat.zero_add]
      rw [if_pos (by simpa using hrun)]
    · intro hfail
      have hnr : (sched (0 + k)).status ≠ .running := by
        simp only [Nat.zero_add]
        rcases hfail with h | h <;> rw [h] <;> simp
      have := hbase (by rw [runResolved]; simp; tauto)
      rw [running_poll]
      rw [this]
      simp only [Nat.zero_add]
      rw [if_neg (by simpa using hnr)]
  · exact stopPollAux_checks_first sched 10 0
  · exact stopPollAux_reloadCount sched 10 0
  · intro h
    exact stopPollAux_timedOut sched 10 0 (fun j hj => by
      simpa using h j hj)
  · intro k hk hfirst hres
    have := stopPollAux_resolved sched 10 0 k hk
      (fun j hj => by simpa using hfirst j hj)
      (by simpa using hres)
    simpa using this

/-- C1 (witness): on the never-resolving schedule both loops time out
within their trace discipline, and on a first-read-exited schedule the
stop loop converges immediately. -/
theorem poll_loop_semantics_witness :
    (running_poll pendingSched).1 = .timedOut
  ∧ waitsBeforeEachReload (running_poll pendingSched).2 = true
  ∧ (stop_poll pendingSched).1 = .timedOut
  ∧ (stop_poll (constSched ⟨.exited, "done"⟩)).1 = .converged ⟨.exited, "done"⟩ := by
  have h₁ := poll_loop_semantics pendingSched
  have h₂ := poll_loop_semantics (constSched ⟨.exited, "done"⟩)
  refine ⟨?_, h₁.1.1, ?_, ?_⟩
  · exact h₁.1.2.2.1 (by intro j hj; rw [pendingSched, constSched, runResolved]; simp)
  · exact h₁.2.2.2.1 (by intro j hj; rw [pendingSched, constSched]; simp)
  · exact h₂.2.2.2.2 0 (by omega) (by intro j hj; omega) (by rw [constSched])

/-! ## C2: start is idempotent on a running container -/

/-- C2: when the container exists with state `running`, `start_container`
short-circuits (main.py:49-50): it returns `already_running`, leaves
the world untouched (in particular it issues no create-and-run
command), and a second call in the resulting state again returns
`already_running` with the creation count unchanged. -/
theorem start_idempotent_when_running (st : SysState) (info : ContainerInfo)
    (hc : st.clientAvailable = true)
    (hco : st.container = some info)
    (hr : info.status = .running) :
    (start_container st).1 = .ok .already_running
  ∧ (start_container st).2 = st
  ∧ (start_container (start_container st).2).1 = .ok .already_running
  ∧ (start_container (start_container st).2).2.runCmds = st.runCmds := by
  have h1 : start_container st = (.ok .already_running, st) := by
    simp [start_container, hc, hco, hr]
  refine ⟨?_, ?_, ?_, ?_⟩ <;> simp [h1]

/-- C2 (witness): starting an already-running container twice yields
`already_running` both times and the single original creation remains
the only one. -/
theorem start_idempotent_witness :
    (start_container runningState).1 = .ok .already_running
  ∧ (start_container (start_container runningState).2).1 = .ok .already_running
  ∧ (start_container (start_container runningState).2).2.runCmds = 1 := by
  have h := start_idempotent_when_running runningState ⟨.running, "up"⟩ rfl rfl rfl
  exact ⟨h.1, h.2.2.1, by rw [h.2.2.2]; rfl⟩

/-! ## C3: start's failure path returns the fetched logs, not a timeout -/

/-- C3: if during start's polling the first resolving observation, at some
attempt `k` before the bound of 10, is a failure state (`exited` or
`dead`), then `start_container` raises the 500
`container_failed_to_start` error carrying the logs fetched at that
observation — and not the 504 timeout. -/
theorem start_failure_state_returns_logs (st : SysState) (k : Nat)
    (hc : st.clientAvailable = true)
    (hnr : ∀ info, st.container = some info → info.status ≠ .running)
    (hacc : st.runOutcome = .accepted)
    (hk : k < 10)
    (hfirst : ∀ j, j < k → ¬ runResolved (st.startSched j).status)
    (hfail : (st.startSched k).status = .exited ∨ (st.startSched k).status = .dead) :
    (start_container st).1 =
      .error ⟨500, .statusLogs "container_failed_to_start" (st.startSched k).logs⟩
  ∧ (start_container st).1 ≠ .error ⟨504, .msg "Container start timed out."⟩ := by
  have hpoll : (running_poll st.startSched).1 = .failedState (st.startSched k) := by
    have hnrk : (st.startSched k).status ≠ .running := by
      rcases hfail with h | h <;> rw [h] <;> simp
    have := runningPollAux_resolved st.startSched 10 0 k hk
      (fun j hj => by simpa using hfirst j hj)
      (by rw [runResolved]; simp; tauto)
    rw [running_poll, this]
    simp only [Nat.zero_add]
    rw [if_neg hnrk]
  rcases hp : running_poll st.startSched with ⟨out, tr⟩
  rw [hp] at hpoll
  simp only at hpoll
  subst hpoll
  have hrun : (startRunAndPoll st).1 =
      .error ⟨500, .statusLogs "container_failed_to_start" (st.startSched k).logs⟩ := by
    simp [startRunAndPoll, hacc, hp]
  have hstart : (start_container st).1 = (startRunAndPoll st).1 := by
    cases hco : st.container with
    | none => simp [start_container, hc, hco]
    | some info => simp [start_container, hc, hco, hnr info hco]
  rw [hstart, hrun]
  refine ⟨rfl, ?_⟩
  simp

/-- C3 (witness): a container observed `created` then `dead` with logs
"boom" on the second read makes start fail with those logs. -/
theorem start_failure_witness :
    (start_container dyingStartState).1 =
      .error ⟨500, .statusLogs "container_failed_to_start" "boom"⟩ := by
  have h := start_failure_state_returns_logs dyingStartState 1 rfl
    (fun info h => Option.noConfusion h)
    rfl (by omega)
    (by
      intro j hj
      have hj0 : j = 0 := by omega
      subst hj0
      rw [runResolved]
      decide)
    (Or.inr rfl)
  exact h.1

/-! ## C10: start on a non-running container creates under the old name -/

/-- C10: when the container exists in a non-running state,
`start_container` neither removes nor restarts it; it issues one
create-and-run command under the same fixed name while the old
container still exists, so when the engine rejects the duplicate-name
creation the operation fails with the generic 500 error and the old
container is still there. -/
theorem start_on_nonrunning_conflict (st : SysState) (info : ContainerInfo) (m : String)
    (hc : st.clientAvailable = true)
    (hco : st.container = some info)
    (hnr : info.status ≠ .running)
    (hrej : st.runOutcome = .rejected m) :
    (start_container st).1 =
      .error ⟨500, .msg ("An unexpected error occurred: " ++ m)⟩
  ∧ (start_container st).2.container = some info
  ∧ (start_container st).2.runCmds = st.runCmds + 1
  ∧ (start_container st).2.removeCmds = st.removeCmds
  ∧ (start_container st).2.restartCmds = st.restartCmds
  ∧ (start_container st).2.stopCmds = st.stopCmds := by
  have h1 : start_container st = startRunAndPoll st := by
    simp [start_container, hc, hco, hnr]
  have h2 : startRunAndPoll st =
      (.error ⟨500, .msg ("An unexpected error occurred: " ++ m)⟩,
        { st with runCmds := st.runCmds + 1 }) := by
    simp [startRunAndPoll, hrej]
  rw [h1, h2]
  exact ⟨rfl, by simp [hco], rfl, rfl, rfl, rfl⟩

/-- C10 (witness): with an exited container of the fixed name still
present and an engine answering the create with a 409 conflict, start
reports the generic error, the old container survives, and exactly the
one rejected creation attempt was issued. -/
theorem start_conflict_witness :
    (start_container conflictState).1 =
      .error ⟨500, .msg ("An unexpected error occurred: " ++ "409 Client Error: Conflict")⟩
  ∧ (start_container conflictState).2.container = some ⟨.exited, "old logs"⟩
  ∧ (start_container conflictState).2.runCmds = 1
  ∧ (start_container conflictState).2.removeCmds = 0 := by
  have h := start_on_nonrunning_conflict conflictState ⟨.exited, "old logs"⟩
    "409 Client Error: Conflict" rfl rfl (by decide) rfl
  exact ⟨h.1, h.2.1, by rw [h.2.2.1]; rfl, by rw [h.2.2.2.1]; rfl⟩

/-! ## C6: a second consecutive stop short-circuits -/

/-- C6 (counterexample): the claim quantifies over every sequence of two
consecutive stop operations, but when the first stop raises the 504
timeout (the container never reaches `exited` within 10 polls,
main.py:80), the container is still present and non-exited afterwards:
the second stop then issues a NEW stop command (main.py:75, the
stop-command count moves from 1 to 2), and — timing out again on the
same schedule — returns neither `already_stopped` nor
`not_found_or_already_stopped`. -/
theorem stop_twice_after_timeout_issues_new_stop :
    (stop_container stuckStopState).1 =
      .error ⟨504, .msg "Container stop timed out."⟩
  ∧ (stop_container stuckStopState).2.container = some ⟨.running, ""⟩
  ∧ (stop_container (stop_container stuckStopState).2).2.stopCmds
      = (stop_container stuckStopState).2.stopCmds + 1
  ∧ (stop_container (stop_container stuckStopState).2).1
      ≠ .ok .already_stopped
  ∧ (stop_container (stop_container stuckStopState).2).1
      ≠ .ok .not_found_or_already_stopped := by
  have he : (stop_container (stop_container stuckStopState).2).1 =
      .error ⟨504, .msg "Container stop timed out."⟩ := rfl
  refine ⟨rfl, rfl, rfl, ?_, ?_⟩ <;>
    · intro h
      rw [he] at h
      exact Except.noConfusion h

/-- C6 (amended): after any stop call that returns (rather than raises),
a second stop call returns `already_stopped` (the container exists
`exited`) or `not_found_or_already_stopped` (the container is absent)
and issues no new stop command to the engine; after a first stop that
raises the 504 timeout the container can remain present and non-exited
and the second call issues a new stop command. -/
theorem stop_twice_short_circuits (st : SysState) (r₁ : StopResult)
    (h : (stop_container st).1 = .ok r₁) :
    ((stop_container (stop_container st).2).1 = .ok .already_stopped
      ∨ (stop_container (stop_container st).2).1 = .ok .not_found_or_already_stopped)
  ∧ (stop_container (stop_container st).2).2.stopCmds
      = (stop_container st).2.stopCmds := by
  by_cases hc : st.clientAvailable = false
  · simp [stop_container, hc] at h
  · cases hco : st.container with
    | none =>
      have h1 : stop_container st = (.ok .not_found_or_already_stopped, st) := by
        simp [stop_container, hc, hco]
      refine ⟨Or.inr ?_, ?_⟩ <;> simp [h1, hco]
    | some info =>
      by_cases hex : info.status = .exited
      · have h1 : stop_container st = (.ok .already_stopped, st) := by
          simp [stop_container, hc, hco, hex]
        refine ⟨Or.inl ?_, ?_⟩ <;> simp [h1, hco, hex]
      · rcases hp : stop_poll st.stopSched with ⟨out, tr⟩
        cases out with
        | timedOut => simp [stop_container, hc, hco, hex, hp] at h
        | converged fin =>
          have hfin : fin.status = .exited :=
            stopPollAux_converged_status st.stopSched 10 0 fin
              (by rw [← stop_poll, hp])
          have h1 : stop_container st = (.ok .stopped_and_verified,
              { st with stopCmds := st.stopCmds + 1, container := some fin }) := by
            simp [stop_container, hc, hco, hex, hp]
          have h2 : stop_container { st with
              stopCmds := st.stopCmds + 1, container := some fin } =
              (.ok .already_stopped,
                { st with stopCmds := st.stopCmds + 1, container := some fin }) := by
            simp [stop_container, hc, hfin]
          refine ⟨Or.inl ?_, ?_⟩ <;> simp [h1, h2]

/-- C6 (witness): stopping a running container that reaches `exited` on
the first poll, then stopping again: the second call short-circuits and
the stop-command count does not move. -/
theorem stop_twice_witness :
    ((stop_container (stop_container runningState).2).1 = .ok .already_stopped
      ∨ (stop_container (stop_container runningState).2).1
          = .ok .not_found_or_already_stopped)
  ∧ (stop_container (stop_container runningState).2).2.stopCmds
      = (stop_container runningState).2.stopCmds :=
  stop_twice_short_circuits runningState .stopped_and_verified rfl

/-! ## C5: error reporting when the data-file write fails -/

theorem stop_container_preserves_env (st : SysState) :
    (stop_container st).2.writeError = st.writeError
  ∧ (stop_container st).2.restartSched = st.restartSched
  ∧ (stop_container st).2.clientAvailable = st.clientAvailable := by
  by_cases hc : st.clientAvailable = false
  · simp [stop_container, hc]
  · cases hco : st.container with
    | none => simp [stop_container, hc, hco]
    | some info =>
      by_cases hex : info.status = .exited
      · simp [stop_container, hc, hco, hex]
      · rcases hp : stop_poll st.stopSched with ⟨out, tr⟩
        cases out <;> simp [stop_container, hc, hco, hex, hp]

theorem restart_container_ok_increments (st : SysState) (r : RestartResult)
    (h : (restart_container st).1 = .ok r) :
    (restart_container st).2.restartCmds = st.restartCmds + 1 := by
  by_cases hc : st.clientAvailable = false
  · simp [restart_container, hc] at h
  · cases hco : st.container with
    | none => simp [restart_container, hc, hco] at h
    | some info =>
      rcases hp : running_poll st.restartSched with ⟨out, tr⟩
      cases out with
      | converged fin => simp [restart_container, hc, hco, hp]
      | failedState fin => simp [restart_container, hc, hco, hp] at h
      | timedOut => simp [restart_container, hc, hco, hp] at h

/-- C5 (counterexample): the claim asserts that whenever the write fails
the reported error is the write error.  With the container absent and
an unwritable file, the restart attempted inside the `except` block
(main.py:110) raises its own 404 before the write error can be raised:
the caller sees "Container not found.", not the write error. -/
theorem update_data_restart_error_masks_write_error :
    (update_data writeFailAbsentState ⟨"dsl.txt", "x"⟩).1 =
      .error ⟨404, .msg "Container not found."⟩
  ∧ (⟨404, .msg "Container not found."⟩ : HttpErr) ≠
      ⟨500, .msg ("Failed to write to file: " ++ "disk full")⟩ :=
  ⟨rfl, by decide⟩

/-- C5 (amended): whenever the file write fails, the restart is still
attempted afterwards; if that restart returns without raising, the
reported error is the write error (a 500 carrying the `IOError` text)
and one restart command was issued, but if the restart itself raises,
its error is what the operation reports and the write error is lost. -/
theorem update_data_write_error_reporting (st : SysState) (req : DataUpdateRequest)
    (err : String) (r₁ : StopResult)
    (hs : (stop_container st).1 = .ok r₁)
    (hw : st.writeError = some err) :
    ((∃ r₂, (restart_container (stop_container st).2).1 = .ok r₂) →
        (update_data st req).1 =
          .error ⟨500, .msg ("Failed to write to file: " ++ err)⟩
      ∧ (update_data st req).2.restartCmds
          = (stop_container st).2.restartCmds + 1)
  ∧ (∀ e, (restart_container (stop_container st).2).1 = .error e →
        (update_data st req).1 = .error e) := by
  rcases hsc : stop_container st with ⟨res, st₁⟩
  have hres : res = .ok r₁ := by rw [hsc] at hs; exact hs
  subst hres
  have hw₁ : st₁.writeError = some err := by
    have hpe := (stop_container_preserves_env st).1
    rw [hsc] at hpe
    simp only at hpe
    rw [hpe, hw]
  constructor
  · rintro ⟨r₂, hr⟩
    simp only at hr
    rcases hrc : restart_container st₁ with ⟨rres, st₂⟩
    rw [hrc] at hr
    simp only at hr
    subst hr
    have hinc := restart_container_ok_increments st₁ r₂ (by rw [hrc])
    rw [hrc] at hinc
    simp only at hinc
    constructor
    · simp [update_data, hsc, hw₁, hrc]
    · simp [update_data, hsc, hw₁, hrc, hinc]
  · intro e hr
    simp only at hr
    rcases hrc : restart_container st₁ with ⟨rres, st₂⟩
    rw [hrc] at hr
    simp only at hr
    subst hr
    simp [update_data, hsc, hw₁, hrc]

/-- C5 (witness): running container, stop verifies, write fails with
"disk full", restart succeeds: the reported error is the write error
and the restart really ran (one restart command issued). -/
theorem update_data_write_error_witness :
    (update_data writeFailRunningState ⟨"dsl.txt", "new"⟩).1 =
      .error ⟨500, .msg ("Failed to write to file: " ++ "disk full")⟩
  ∧ (update_data writeFailRunningState ⟨"dsl.txt", "new"⟩).2.restartCmds
      = (stop_container writeFailRunningState).2.restartCmds + 1 := by
  have h := update_data_write_error_reporting writeFailRunningState
    ⟨"dsl.txt", "new"⟩ "disk full" .stopped_and_verified rfl rfl
  exact h.1 ⟨.restarted_and_running, rfl⟩

/-! ## C4: a failed build aborts before any container creation -/

/-- C4: if the image build step of rebuild-and-redeploy fails (whether
with a `BuildError` or any other exception), the start sub-operation is
never invoked — no create-and-run command is issued — and the
container, stopped and removed in step (a) when it existed, is absent
afterwards; in particular the operation cannot report the composite
success. -/
theorem rebuild_build_failure_skips_start (st : SysState)
    (hc : st.clientAvailable = true)
    (hb : (∃ m, st.buildOutcome = .buildError m)
      ∨ ∃ m, st.buildOutcome = .infraError m) :
    (rebuild_and_redeploy st).2.runCmds = st.runCmds
  ∧ (rebuild_and_redeploy st).2.container = none
  ∧ ∀ s bl, (rebuild_and_redeploy st).1
      ≠ .ok (.rebuild_and_restart_successful s bl) := by
  cases hco : st.container with
  | none =>
    rcases hb with ⟨m, hm⟩ | ⟨m, hm⟩ <;>
      exact ⟨by simp [rebuild_and_redeploy, hc, hco, hm],
        by simp [rebuild_and_redeploy, hc, hco, hm],
        by intro s bl; simp [rebuild_and_redeploy, hc, hco, hm]⟩
  | some info =>
    rcases hb with ⟨m, hm⟩ | ⟨m, hm⟩ <;>
      exact ⟨by simp [rebuild_and_redeploy, hc, hco, hm],
        by simp [rebuild_and_redeploy, hc, hco, hm],
        by intro s bl; simp [rebuild_and_redeploy, hc, hco, hm]⟩

/-- C4 (witness): with a running container and a failing build, rebuild
issues no creation (count stays 0) and leaves the container absent. -/
theorem rebuild_build_failure_witness :
    (rebuild_and_redeploy buildFailState).2.runCmds = 0
  ∧ (rebuild_and_redeploy buildFailState).2.container = none := by
  have h := rebuild_build_failure_skips_start buildFailState rfl
    (Or.inl ⟨"Step 3/7 failed", rfl⟩)
  exact ⟨by rw [h.1]; rfl, h.2.1⟩

/-! ## C7: a build error surfaces the captured build log text -/

/-- C7: when the build step fails with a `BuildError` carrying log text
`m`, rebuild-and-redeploy hands the caller the `build_failed` payload
with exactly that text (main.py:164 returns the `HTTPException(500, ...)`
object rather than raising it) — a result distinct from the composite
success response (which carries the accumulated streamed build log) and
distinct from every raised infrastructure error. -/
theorem rebuild_build_error_returns_logs (st : SysState) (m : String)
    (hc : st.clientAvailable = true)
    (hb : st.buildOutcome = .buildError m) :
    (rebuild_and_redeploy st).1 = .ok (.build_failed m)
  ∧ (∀ s bl, RebuildResult.build_failed m
      ≠ .rebuild_and_restart_successful s bl)
  ∧ (∀ e : HttpErr, (rebuild_and_redeploy st).1 ≠ .error e) := by
  have h1 : (rebuild_and_redeploy st).1 = .ok (.build_failed m) := by
    cases hco : st.container <;> simp [rebuild_and_redeploy, hc, hco, hb]
  refine ⟨h1, ?_, ?_⟩
  · intro s bl
    simp
  · intro e
    rw [h1]
    simp

/-- C7 (witness): the concrete failing build surfaces its captured log
text and is not a raised error. -/
theorem rebuild_build_error_witness :
    (rebuild_and_redeploy buildFailState).1 = .ok (.build_failed "Step 3/7 failed")
  ∧ ∀ e : HttpErr, (rebuild_and_redeploy buildFailState).1 ≠ .error e := by
  have h := rebuild_build_error_returns_logs buildFailState "Step 3/7 failed" rfl rfl
  exact ⟨h.1, h.2.2⟩

/-! ## C8: degraded mode short-circuits every operation -/

/-- C8: when the connection to the engine failed at process start
(`client = None`), every operation — status, start, stop, restart,
update-data and rebuild — immediately raises the 503
runtime-unavailable error and leaves the world untouched: no engine
command is issued and no file is written (`update_data` reaches the 503
through the `stop_container()` it calls first, before its write). -/
theorem degraded_mode_short_circuits (st : SysState) (req : DataUpdateRequest)
    (h : st.clientAvailable = false) :
    get_status st = (.error unavailableErr, st)
  ∧ start_container st = (.error unavailableErr, st)
  ∧ stop_container st = (.error unavailableErr, st)
  ∧ restart_container st = (.error unavailableErr, st)
  ∧ update_data st req = (.error unavailableErr, st)
  ∧ rebuild_and_redeploy st = (.error unavailableErr, st) := by
  have hstop : stop_container st = (.error unavailableErr, st) := by
    simp [stop_container, h]
  refine ⟨?_, ?_, hstop, ?_, ?_, ?_⟩
  · simp [get_status, h]
  · simp [start_container, h]
  · simp [restart_container, h]
  · simp [update_data, hstop]
  · simp [rebuild_and_redeploy, h]

/-- C8 (witness): in the concrete degraded world every handler returns
the 503 and the state — counters and writes included — is unchanged. -/
theorem degraded_mode_witness :
    get_status degradedState = (.error unavailableErr, degradedState)
  ∧ update_data degradedState ⟨"dsl.txt", "x"⟩
      = (.error unavailableErr, degradedState)
  ∧ rebuild_and_redeploy degradedState = (.error unavailableErr, degradedState) := by
  have h := degraded_mode_short_circuits degradedState ⟨"dsl.txt", "x"⟩ rfl
  exact ⟨h.1, h.2.2.2.2.1, h.2.2.2.2.2⟩

/-! ## C9: the write path of update-data -/

/-- C9 (counterexample): the claim asserts the written file always lies
under the fixed host data directory.  `os.path.join` discards the base
directory entirely for an absolute filename: for `/etc/passwd` the
write path IS `/etc/passwd`, outside the data directory. -/
theorem update_data_path_escape :
    update_data_file_path "/etc/passwd" = "/etc/passwd"
  ∧ ¬ liesUnder HOST_DATA_PATH (update_data_file_path "/etc/passwd") := by
  have hjoin : update_data_file_path "/etc/passwd" = "/etc/passwd" := rfl
  refine ⟨hjoin, ?_⟩
  rw [hjoin, liesUnder]
  rintro ⟨rest, -, -, heq⟩
  have hlen := congrArg String.length heq
  rw [String.length_append, String.length_append] at hlen
  have h1 : ("/etc/passwd" : String).length = 11 := rfl
  have h2 : HOST_DATA_PATH.length = 25 := by
    rw [HOST_DATA_PATH, String.length_append]
    rfl
  have h3 : ("/" : String).length = 1 := rfl
  rw [h1, h2, h3] at hlen
  omega

/-- C9 (amended): for every relative filename (no leading `/`) with no
`..` segment, the path `update_data` writes is exactly
`HOST_DATA_PATH ++ "/" ++ filename` and lies under the fixed host data
directory; an absolute filename instead replaces the directory
entirely. -/
theorem update_data_path_safe_filenames (filename : String)
    (h1 : headIsSlash filename = false)
    (h2 : hasParentSeg filename = false) :
    update_data_file_path filename = HOST_DATA_PATH ++ "/" ++ filename
  ∧ liesUnder HOST_DATA_PATH (update_data_file_path filename) := by
  have hpath : update_data_file_path filename = HOST_DATA_PATH ++ "/" ++ filename := by
    rw [update_data_file_path, osPathJoin]
    rw [if_neg (show ¬(headIsSlash filename = true) by rw [h1]; simp)]
    rw [if_neg (show ¬(HOST_DATA_PATH = "") by decide)]
    rw [if_neg (show ¬(lastIsSlash HOST_DATA_PATH = true) by decide)]
  exact ⟨hpath, ⟨filename, h1, h2, hpath⟩⟩

/-- C9 (witness): the ordinary configuration filename `dsl.txt` stays
inside the data directory. -/
theorem update_data_path_safe_witness :
    update_data_file_path "dsl.txt" = HOST_DATA_PATH ++ "/" ++ "dsl.txt"
  ∧ liesUnder HOST_DATA_PATH (update_data_file_path "dsl.txt") :=
  update_data_path_safe_filenames "dsl.txt" rfl (by decide)
